import Mathlib

/-!
Shallow embedding of `src/strategies/delivery.js` (class `DeliveryStrategy`)
from the autonomous-software-agents repository, together with theorems about
its behaviour.  JavaScript numbers appearing in scores are modelled as exact
rationals, with an explicit `JNum` type capturing the IEEE infinities and NaN
produced by the score division `reward / (addedSteps + 1)` when the divisor
is zero, and by the `-Infinity` initial best score.  Mutation of `this` is
modelled by explicit state passing: each method takes the strategy state and
returns its result together with the updated state.
-/

namespace AgentDelivery

/-- A grid cell `{x, y}`. -/
structure Pos where
  x : Int
  y : Int
deriving DecidableEq

/-- A parcel record as stored in the beliefs. -/
structure Parcel where
  id : String
  x : Int
  y : Int
  reward : ℚ
  carriedBy : Option String
deriving DecidableEq

/-- Another agent's record; its coordinates may be fractional (the source
applies `Math.floor` before comparing them with tile coordinates). -/
structure AgentRec where
  id : String
  x : ℚ
  y : ℚ
deriving DecidableEq

/-- JavaScript truthiness for a string-or-null value: `null`/`undefined`
(modelled as `none`) and the empty string are falsy. -/
def strFalsy : Option String → Bool
  | none => true
  | some t => decide (t = "")

/-- The belief store interface used by the strategy (external collaborator,
out of scope; its query methods are modelled as function-valued fields). -/
structure Beliefs where
  myId : Option String
  myPosition : Option Pos
  agents : Option (List AgentRec)
  availableParcels : List Parcel
  isDeliveryTile : Int → Int → Bool
  getClosestDeliveryTile : Int → Int → Option Pos
  calculateDistance : Int → Int → ℚ

/-- The pathfinding interface (external collaborator, out of scope). -/
structure Pathfinder where
  findPath : Int → Int → Int → Int → List Pos
  getActionToNextStep : Int → Int → Int → Int → Option String

/-- Action descriptors returned to the runtime. -/
inductive Action where
  | putdown
  | pickup (target : String)
  | move (dir : String)
deriving DecidableEq

/-- The state of the `DeliveryStrategy` class: the two collaborators, the
configuration constants fixed in the constructor, and the mutable fields. -/
structure DeliveryStrategy where
  beliefs : Beliefs
  pathfinder : Pathfinder
  carriedParcels : List Parcel
  deliveryThreshold : ℚ
  maxDetourDistance : ℚ
  deliveryPath : List Pos
  blockedTargetTile : Option Pos
  blockedCounter : Nat
  BLOCKED_TIMEOUT : Nat

/-- `shouldDeliver()`: true iff we are carrying parcels. -/
def shouldDeliver (s : DeliveryStrategy) : Bool :=
  decide (s.carriedParcels.length > 0)

/-- `isBlockedByOtherAgent(x, y)`: the source first returns `false` when
`this.beliefs.myId` or `this.beliefs.agents` is falsy, then checks whether
any agent other than ourselves stands (after flooring) at `(x, y)`. -/
def isBlockedByOtherAgent (s : DeliveryStrategy) (x y : Int) : Bool :=
  match s.beliefs.myId, s.beliefs.agents with
  | some m, some ags =>
    if m = "" then false
    else ags.any fun a => decide (a.id ≠ m) && decide (⌊a.x⌋ = x) && decide (⌊a.y⌋ = y)
  | _, _ => false

/-- `isAtPosition(x1, y1, x2, y2)`: exact coordinate equality. -/
def isAtPosition (x1 y1 x2 y2 : Int) : Bool :=
  decide (x1 = x2) && decide (y1 = y2)

/-- `isPathLeadingTo(path, targetX, targetY)`: false on the empty path,
otherwise compares the final step's coordinates with the target. -/
def isPathLeadingTo (path : List Pos) (targetX targetY : Int) : Bool :=
  match path.getLast? with
  | none => false
  | some finalStep => decide (finalStep.x = targetX) && decide (finalStep.y = targetY)

/-- A JavaScript number as it occurs in the detour scoring: an exact finite
value, one of the two infinities, or NaN. -/
inductive JNum where
  | neginf
  | fin (q : ℚ)
  | posinf
  | nan
deriving DecidableEq

/-- JavaScript division producing a `JNum`: division by zero yields a signed
infinity (or NaN for `0 / 0`). -/
def jsDiv (a b : ℚ) : JNum :=
  if b = 0 then
    if a > 0 then JNum.posinf else if a < 0 then JNum.neginf else JNum.nan
  else JNum.fin (a / b)

/-- JavaScript strict `>` on `JNum`: any comparison involving NaN is false. -/
def jgt : JNum → JNum → Bool
  | JNum.nan, _ => false
  | _, JNum.nan => false
  | JNum.posinf, JNum.posinf => false
  | JNum.posinf, _ => true
  | JNum.fin _, JNum.posinf => false
  | JNum.fin a, JNum.fin b => decide (b < a)
  | JNum.fin _, JNum.neginf => true
  | JNum.neginf, _ => false

/-- The candidate list of `evaluateDetourParcels`: parcels whose `carriedBy`
is falsy and whose reward exceeds the threshold, then pre-filtered by the
heuristic distance. -/
def potentialDetourParcels (s : DeliveryStrategy) : List Parcel :=
  (s.beliefs.availableParcels.filter fun p =>
      strFalsy p.carriedBy && decide (p.reward > s.deliveryThreshold)).filter fun p =>
    decide (s.beliefs.calculateDistance p.x p.y ≤ s.maxDetourDistance)

/-- `addedSteps` for a candidate parcel: (route to the parcel + route from
the parcel to the delivery tile) minus the base path length. -/
def detourAddedSteps (s : DeliveryStrategy) (currentPos deliveryTile : Pos)
    (basePathLength : Nat) (p : Parcel) : Int :=
  (((s.pathfinder.findPath currentPos.x currentPos.y p.x p.y).length +
      (s.pathfinder.findPath p.x p.y deliveryTile.x deliveryTile.y).length : Nat) : Int) -
    (basePathLength : Int)

/-- The detour score `reward / (addedSteps + 1)` in JavaScript arithmetic. -/
def detourScore (s : DeliveryStrategy) (currentPos deliveryTile : Pos)
    (basePathLength : Nat) (p : Parcel) : JNum :=
  jsDiv p.reward ((detourAddedSteps s currentPos deliveryTile basePathLength p : ℚ) + 1)

/-- A candidate parcel survives the loop body's checks: both route legs are
reachable (a zero-length route is only accepted when already co-located) and
`addedSteps` is within `maxDetourDistance`. -/
def DetourValid (s : DeliveryStrategy) (currentPos deliveryTile : Pos)
    (basePathLength : Nat) (p : Parcel) : Prop :=
  ¬((s.pathfinder.findPath currentPos.x currentPos.y p.x p.y).length = 0 ∧
      isAtPosition currentPos.x currentPos.y p.x p.y = false) ∧
  ¬((s.pathfinder.findPath p.x p.y deliveryTile.x deliveryTile.y).length = 0 ∧
      isAtPosition p.x p.y deliveryTile.x deliveryTile.y = false) ∧
  (detourAddedSteps s currentPos deliveryTile basePathLength p : ℚ) ≤ s.maxDetourDistance

instance (s : DeliveryStrategy) (cp dt : Pos) (bpl : Nat) (p : Parcel) :
    Decidable (DetourValid s cp dt bpl p) := by
  unfold DetourValid; infer_instance

/-- The body of the `for (const parcel of potentialDetourParcels)` loop,
acting on the accumulator `(bestDetourParcel, bestDetourScore)`.  The
source's local variables `pathToParcel`, `pathFromParcelToDelivery`,
`addedSteps` and `detourScore` correspond to the named helper definitions
above. -/
def detourStep (s : DeliveryStrategy) (currentPos deliveryTile : Pos) (basePathLength : Nat)
    (acc : Option Parcel × JNum) (parcel : Parcel) : Option Parcel × JNum :=
  if (s.pathfinder.findPath currentPos.x currentPos.y parcel.x parcel.y).length = 0 ∧
      isAtPosition currentPos.x currentPos.y parcel.x parcel.y = false then
    acc
  else if (s.pathfinder.findPath parcel.x parcel.y deliveryTile.x deliveryTile.y).length = 0 ∧
      isAtPosition parcel.x parcel.y deliveryTile.x deliveryTile.y = false then
    acc
  else if (detourAddedSteps s currentPos deliveryTile basePathLength parcel : ℚ) ≤
      s.maxDetourDistance then
    if jgt (detourScore s currentPos deliveryTile basePathLength parcel) acc.2 then
      (some parcel, detourScore s currentPos deliveryTile basePathLength parcel)
    else acc
  else acc

/-- The return value of `evaluateDetourParcels()`.  The source reads
`this.beliefs.myPosition` without a null check (the caller has already
checked it); a missing position is modelled as producing no candidate. -/
def evaluateDetourParcelsResult (s : DeliveryStrategy) : Option Parcel :=
  match s.beliefs.myPosition with
  | none => none
  | some currentPos =>
    match s.beliefs.getClosestDeliveryTile currentPos.x currentPos.y with
    | none => none
    | some deliveryTile =>
      let basePathLength :=
        (s.pathfinder.findPath currentPos.x currentPos.y deliveryTile.x deliveryTile.y).length
      if basePathLength = 0 ∧
          isAtPosition currentPos.x currentPos.y deliveryTile.x deliveryTile.y = false then
        none
      else
        ((potentialDetourParcels s).foldl
          (detourStep s currentPos deliveryTile basePathLength) (none, JNum.neginf)).1

/-- `evaluateDetourParcels()` as a method call: it performs no assignment to
`this`, so the state it leaves behind is the input state. -/
def evaluateDetourParcels (s : DeliveryStrategy) : Option Parcel × DeliveryStrategy :=
  (evaluateDetourParcelsResult s, s)

/-- `followDeliveryPath(currentX, currentY)`. -/
def followDeliveryPath (s : DeliveryStrategy) (currentX currentY : Int) :
    Option Action × DeliveryStrategy :=
  match s.deliveryPath with
  | [] => (none, { s with blockedTargetTile := none, blockedCounter := 0 })
  | nextStep :: rest =>
    let targetX := nextStep.x
    let targetY := nextStep.y
    if isBlockedByOtherAgent s targetX targetY then
      match s.blockedTargetTile with
      | some bt =>
        if bt.x = targetX ∧ bt.y = targetY then
          if s.blockedCounter + 1 ≥ s.BLOCKED_TIMEOUT then
            (none, { s with deliveryPath := [], blockedTargetTile := none, blockedCounter := 0 })
          else
            (none, { s with blockedCounter := s.blockedCounter + 1 })
        else
          (none, { s with blockedTargetTile := some { x := targetX, y := targetY },
                          blockedCounter := 1 })
      | none =>
        (none, { s with blockedTargetTile := some { x := targetX, y := targetY },
                        blockedCounter := 1 })
    else
      match s.pathfinder.getActionToNextStep currentX currentY targetX targetY with
      | some action =>
        (some (Action.move action),
          { s with deliveryPath := rest, blockedTargetTile := none, blockedCounter := 0 })
      | none =>
        (none, { s with deliveryPath := [], blockedTargetTile := none, blockedCounter := 0 })

/-- `getDeliveryAction()`: the main entry point. -/
def getDeliveryAction (s : DeliveryStrategy) : Option Action × DeliveryStrategy :=
  if shouldDeliver s = false then (none, s)
  else
    match s.beliefs.myPosition with
    | none => (none, s)
    | some currentPos =>
      if s.beliefs.isDeliveryTile currentPos.x currentPos.y then
        (some Action.putdown, { s with deliveryPath := [] })
      else
        let ed := evaluateDetourParcels s
        match ed.1 with
        | some detourParcel =>
          let s1 := ed.2
          if isAtPosition detourParcel.x detourParcel.y currentPos.x currentPos.y then
            (some (Action.pickup detourParcel.id), s1)
          else
            let s2 :=
              if s1.deliveryPath.length = 0 ∨
                  isPathLeadingTo s1.deliveryPath detourParcel.x detourParcel.y = false then
                { s1 with deliveryPath := s1.pathfinder.findPath currentPos.x currentPos.y detourParcel.x detourParcel.y }
              else s1
            followDeliveryPath s2 currentPos.x currentPos.y
        | none =>
          let s1 := ed.2
          match s1.beliefs.getClosestDeliveryTile currentPos.x currentPos.y with
          | none => (none, { s1 with deliveryPath := [] })
          | some closestDeliveryTile =>
            let s2 :=
              if s1.deliveryPath.length = 0 ∨
                  isPathLeadingTo s1.deliveryPath closestDeliveryTile.x closestDeliveryTile.y
                    = false then
                { s1 with deliveryPath := s1.pathfinder.findPath currentPos.x currentPos.y closestDeliveryTile.x closestDeliveryTile.y }
              else s1
            followDeliveryPath s2 currentPos.x currentPos.y

/-- `updateCarriedParcels(allParcels)`. -/
def updateCarriedParcels (s : DeliveryStrategy) (allParcels : List Parcel) : DeliveryStrategy :=
  if s.beliefs.myId ≠ none then
    let carriedParcels := allParcels.filter fun p => decide (p.carriedBy = s.beliefs.myId)
    if carriedParcels.length = 0 ∧ s.deliveryPath.length > 0 then
      { s with carriedParcels := carriedParcels, deliveryPath := [],
               blockedTargetTile := none, blockedCounter := 0 }
    else
      { s with carriedParcels := carriedParcels }
  else
    { s with carriedParcels := [] }

/-! ### Concrete test fixtures

Small concrete belief stores, pathfinders and strategy states used to
instantiate the theorems below on executable inputs.  The map is a single
horizontal corridor with the delivery tile at `(5, 0)`. -/

/-- A belief store over the corridor map: the delivery tile is `(5, 0)` and
the heuristic distance is the taxicab norm of the target cell. -/
def mkBeliefs (id : Option String) (ags : Option (List AgentRec)) (pos : Option Pos)
    (parcels : List Parcel) : Beliefs :=
  { myId := id
    myPosition := pos
    agents := ags
    availableParcels := parcels
    isDeliveryTile := fun x y => decide (x = 5) && decide (y = 0)
    getClosestDeliveryTile := fun _ _ => some ⟨5, 0⟩
    calculateDistance := fun x y => ((x.natAbs + y.natAbs : Nat) : ℚ) }

/-- A pathfinder walking rightwards along the corridor; moving to the cell on
the right is the only primitive step it can resolve. -/
def mkPathfinder : Pathfinder :=
  { findPath := fun x1 _ x2 y2 => (List.range (x2 - x1).toNat).map fun i => ⟨x1 + i + 1, y2⟩
    getActionToNextStep := fun x1 _ x2 _ => if x2 = x1 + 1 then some "right" else none }

/-- A strategy state over `mkPathfinder` with `deliveryThreshold = 10` and
`maxDetourDistance = 5`. -/
def mkStrategy (b : Beliefs) (path : List Pos) (bt : Option Pos) (bc : Nat)
    (timeout : Nat) (carried : List Parcel) : DeliveryStrategy :=
  { beliefs := b
    pathfinder := mkPathfinder
    carriedParcels := carried
    deliveryThreshold := 10
    maxDetourDistance := 5
    deliveryPath := path
    blockedTargetTile := bt
    blockedCounter := bc
    BLOCKED_TIMEOUT := timeout }

/-- An uncarried reward-50 parcel sitting one step along the corridor. -/
def parcelP1 : Parcel := ⟨"p1", 1, 0, 50, none⟩

/-- A parcel carried by the agent itself. -/
def carriedC1 : Parcel := ⟨"c1", 0, 0, 7, some "me"⟩

/-- Fixture for the detour claim: agent at the origin carrying `carriedC1`,
with `parcelP1` available en route. -/
def sDetour : DeliveryStrategy :=
  mkStrategy (mkBeliefs (some "me") (some []) (some ⟨0, 0⟩) [parcelP1]) [] none 0 3 [carriedC1]

/-- Fixture for the blocked-timeout claim: agent "bob" stands on the next
path step, which is also the previously recorded blocked tile. -/
def sBlocked : DeliveryStrategy :=
  mkStrategy (mkBeliefs (some "me") (some [⟨"bob", 1, 0⟩]) (some ⟨0, 0⟩) [])
    [⟨1, 0⟩, ⟨2, 0⟩] (some ⟨1, 0⟩) 1 3 [carriedC1]

/-- Fixture for the put-down claims: agent standing on the delivery tile with
stale blocking state left over from an earlier turn. -/
def sOnTile : DeliveryStrategy :=
  mkStrategy (mkBeliefs (some "me") (some []) (some ⟨5, 0⟩) [])
    [⟨9, 9⟩] (some ⟨9, 9⟩) 5 3 [carriedC1]

/-- Fixture for the unknown-id update claim: the agent id is unknown while a
parcel is still recorded as carried and a route is committed. -/
def sNoId : DeliveryStrategy :=
  mkStrategy (mkBeliefs none none (some ⟨0, 0⟩) [])
    [⟨1, 0⟩] (some ⟨1, 0⟩) 2 3 [carriedC1]

/-- Fixture for the delivery-completion update claim: id known, committed
route, and a parcel list in which nothing is carried by the agent. -/
def sDropped : DeliveryStrategy :=
  mkStrategy (mkBeliefs (some "me") (some []) (some ⟨0, 0⟩) [])
    [⟨1, 0⟩] (some ⟨1, 0⟩) 2 3 [carriedC1]

/-- Fixture for the new-blocked-tile claim: the recorded blocked tile differs
from the tile that is now blocked. -/
def sNewBlock : DeliveryStrategy :=
  mkStrategy (mkBeliefs (some "me") (some [⟨"bob", 1, 0⟩]) (some ⟨0, 0⟩) [])
    [⟨1, 0⟩] (some ⟨9, 9⟩) 7 3 [carriedC1]

/-- Fixture for the lazy-recomputation claim: a committed two-step route, no
available parcels, agent not on a delivery tile. -/
def sLazy : DeliveryStrategy :=
  mkStrategy (mkBeliefs (some "me") (some []) (some ⟨0, 0⟩) [])
    [⟨1, 0⟩, ⟨2, 0⟩] none 0 3 [carriedC1]

/-- Fixture for the unblocked-step claim: free next tile, resolvable step. -/
def sFree : DeliveryStrategy :=
  mkStrategy (mkBeliefs (some "me") (some []) (some ⟨0, 0⟩) [])
    [⟨1, 0⟩, ⟨2, 0⟩] none 0 3 [carriedC1]

/-- Fixture for the missing-id claim: the agent id is unknown while another
agent stands exactly on the next path step. -/
def sBlindBlocked : DeliveryStrategy :=
  mkStrategy (mkBeliefs none (some [⟨"bob", 1, 0⟩]) (some ⟨0, 0⟩) [])
    [⟨1, 0⟩] none 0 3 [carriedC1]

/-! ### Helper lemmas -/

lemma jgt_irrefl (a : JNum) : jgt a a = false := by
  cases a <;> simp [jgt]

lemma jgt_trans {a b c : JNum} (h1 : jgt a b = true) (h2 : jgt b c = true) :
    jgt a c = true := by
  cases a <;> cases b <;> cases c <;> simp_all [jgt]
  all_goals linarith

lemma jgt_asymm {a b : JNum} (h : jgt a b = true) : jgt b a = false := by
  cases hba : jgt b a
  · rfl
  · have h2 := jgt_trans hba h
    rw [jgt_irrefl] at h2
    exact h2.symm

/-- `evaluateDetourParcels` performs no assignment: the state component of
its result is the input state. -/
lemma evaluateDetourParcels_state (s : DeliveryStrategy) :
    (evaluateDetourParcels s).2 = s := rfl

/-- The loop body in terms of the packaged validity predicate and score. -/
lemma detourStep_spec (s : DeliveryStrategy) (cp dt : Pos) (bpl : Nat)
    (acc : Option Parcel × JNum) (p : Parcel) :
    detourStep s cp dt bpl acc p =
      if DetourValid s cp dt bpl p then
        if jgt (detourScore s cp dt bpl p) acc.2 then (some p, detourScore s cp dt bpl p)
        else acc
      else acc := by
  unfold detourStep DetourValid
  by_cases h1 : (s.pathfinder.findPath cp.x cp.y p.x p.y).length = 0 ∧
      isAtPosition cp.x cp.y p.x p.y = false
  · rw [if_pos h1, if_neg (by intro hc; exact hc.1 h1)]
  · by_cases h2 : (s.pathfinder.findPath p.x p.y dt.x dt.y).length = 0 ∧
        isAtPosition p.x p.y dt.x dt.y = false
    · rw [if_neg h1, if_pos h2, if_neg (by intro hc; exact hc.2.1 h2)]
    · by_cases h3 : (detourAddedSteps s cp dt bpl p : ℚ) ≤ s.maxDetourDistance
      · have hcond : (¬((s.pathfinder.findPath cp.x cp.y p.x p.y).length = 0 ∧
            isAtPosition cp.x cp.y p.x p.y = false)) ∧
            (¬((s.pathfinder.findPath p.x p.y dt.x dt.y).length = 0 ∧
              isAtPosition p.x p.y dt.x dt.y = false)) ∧
            (detourAddedSteps s cp dt bpl p : ℚ) ≤ s.maxDetourDistance := ⟨h1, h2, h3⟩
        rw [if_neg h1, if_neg h2, if_pos h3, if_pos hcond]
      · rw [if_neg h1, if_neg h2, if_neg h3, if_neg (fun hc => h3 hc.2.2)]

/-- Behaviour of a fold that keeps the strictly best-scoring valid element:
either nothing beat the initial accumulator, or the result is the first
element attaining the running maximum, no valid element strictly beats it,
and no earlier valid element ties with it. -/
lemma foldl_best_spec (V : Parcel → Prop) [DecidablePred V] (sc : Parcel → JNum)
    (step : Option Parcel × JNum → Parcel → Option Parcel × JNum)
    (hstep : ∀ acc p, step acc p =
      if V p then (if jgt (sc p) acc.2 then (some p, sc p) else acc) else acc) :
    ∀ (l : List Parcel) (acc : Option Parcel × JNum),
      (l.foldl step acc = acc ∧ ∀ q ∈ l, V q → jgt (sc q) acc.2 = false) ∨
      (∃ l1 p l2, l = l1 ++ p :: l2 ∧ V p ∧ l.foldl step acc = (some p, sc p) ∧
        jgt (sc p) acc.2 = true ∧
        (∀ q ∈ l1, V q → jgt (sc q) (sc p) = false ∧ sc q ≠ sc p) ∧
        (∀ q ∈ l2, V q → jgt (sc q) (sc p) = false)) := by
  intro l
  induction l with
  | nil =>
    intro acc
    left
    exact ⟨rfl, by simp⟩
  | cons e t ih =>
    intro acc
    rw [List.foldl_cons]
    by_cases hVe : V e
    · cases hge : jgt (sc e) acc.2 with
      | true =>
        have hse : step acc e = (some e, sc e) := by rw [hstep]; simp [hVe, hge]
        rw [hse]
        rcases ih (some e, sc e) with ⟨hfold, hall⟩ | ⟨l1, p, l2, hsplit, hVp, hfold, hgp, hl1, hl2⟩
        · right
          refine ⟨[], e, t, rfl, hVe, by rw [hfold], hge, by simp, ?_⟩
          intro q hq hVq
          simpa using hall q hq hVq
        · right
          have hgp2 : jgt (sc p) (sc e) = true := by simpa using hgp
          refine ⟨e :: l1, p, l2, by simp [hsplit], hVp, hfold, jgt_trans hgp2 hge, ?_, hl2⟩
          intro q hq hVq
          rcases List.mem_cons.mp hq with rfl | hq2
          · refine ⟨jgt_asymm hgp2, ?_⟩
            intro heq
            rw [heq, jgt_irrefl] at hgp2
            exact Bool.noConfusion hgp2
          · exact hl1 q hq2 hVq
      | false =>
        have hse : step acc e = acc := by rw [hstep]; simp [hVe, hge]
        rw [hse]
        rcases ih acc with ⟨hfold, hall⟩ | ⟨l1, p, l2, hsplit, hVp, hfold, hgp, hl1, hl2⟩
        · left
          refine ⟨hfold, ?_⟩
          intro q hq hVq
          rcases List.mem_cons.mp hq with rfl | hq2
          · exact hge
          · exact hall q hq2 hVq
        · right
          refine ⟨e :: l1, p, l2, by simp [hsplit], hVp, hfold, hgp, ?_, hl2⟩
          intro q hq hVq
          rcases List.mem_cons.mp hq with rfl | hq2
          · constructor
            · cases hqp : jgt (sc q) (sc p)
              · rfl
              · have := jgt_trans hqp hgp
                rw [hge] at this
                exact this.symm
            · intro heq
              rw [heq, hgp] at hge
              exact Bool.noConfusion hge
          · exact hl1 q hq2 hVq
    · have hse : step acc e = acc := by rw [hstep]; simp [hVe]
      rw [hse]
      rcases ih acc with ⟨hfold, hall⟩ | ⟨l1, p, l2, hsplit, hVp, hfold, hgp, hl1, hl2⟩
      · left
        refine ⟨hfold, ?_⟩
        intro q hq hVq
        rcases List.mem_cons.mp hq with rfl | hq2
        · exact absurd hVq hVe
        · exact hall q hq2 hVq
      · right
        refine ⟨e :: l1, p, l2, by simp [hsplit], hVp, hfold, hgp, ?_, hl2⟩
        intro q hq hVq
        rcases List.mem_cons.mp hq with rfl | hq2
        · exact absurd hVq hVe
        · exact hl1 q hq2 hVq

/-- Whenever `followDeliveryPath` leaves the path empty, the blocking state
has been reset. -/
lemma followDeliveryPath_cleared_resets (s : DeliveryStrategy) (cx cy : Int)
    (h : (followDeliveryPath s cx cy).2.deliveryPath = []) :
    (followDeliveryPath s cx cy).2.blockedTargetTile = none ∧
    (followDeliveryPath s cx cy).2.blockedCounter = 0 := by
  cases hp : s.deliveryPath with
  | nil => simp [followDeliveryPath, hp]
  | cons step rest =>
    by_cases hb : isBlockedByOtherAgent s step.x step.y
    · cases hbt : s.blockedTargetTile with
      | none => simp [followDeliveryPath, hp, hb, hbt] at h
      | some bt =>
        by_cases hsame : bt.x = step.x ∧ bt.y = step.y
        · by_cases hto : s.blockedCounter + 1 ≥ s.BLOCKED_TIMEOUT
          · simp [followDeliveryPath, hp, hb, hbt, hsame, hto]
          · simp [followDeliveryPath, hp, hb, hbt, hsame, hto] at h
        · simp [followDeliveryPath, hp, hb, hbt, hsame] at h
    · cases ha : s.pathfinder.getActionToNextStep cx cy step.x step.y with
      | none => simp [followDeliveryPath, hp, hb, ha]
      | some a => simp [followDeliveryPath, hp, hb, ha]

/-- Characterisation of `isPathLeadingTo` by the final step of the path. -/
lemma isPathLeadingTo_iff (path : List Pos) (tx ty : Int) :
    isPathLeadingTo path tx ty = true ↔
      ∃ last, path.getLast? = some last ∧ last.x = tx ∧ last.y = ty := by
  unfold isPathLeadingTo
  cases h : path.getLast? with
  | none => simp
  | some finalStep => simp

lemma evaluateDetourParcelsResult_none_pos (s : DeliveryStrategy)
    (hpos : s.beliefs.myPosition = none) :
    evaluateDetourParcelsResult s = none := by
  unfold evaluateDetourParcelsResult
  rw [hpos]

lemma evaluateDetourParcelsResult_none_tile (s : DeliveryStrategy) (pos : Pos)
    (hpos : s.beliefs.myPosition = some pos)
    (htile : s.beliefs.getClosestDeliveryTile pos.x pos.y = none) :
    evaluateDetourParcelsResult s = none := by
  unfold evaluateDetourParcelsResult
  rw [hpos]
  dsimp only
  rw [htile]

lemma evaluateDetourParcelsResult_eq (s : DeliveryStrategy) (pos tile : Pos)
    (hpos : s.beliefs.myPosition = some pos)
    (htile : s.beliefs.getClosestDeliveryTile pos.x pos.y = some tile) :
    evaluateDetourParcelsResult s =
      if (s.pathfinder.findPath pos.x pos.y tile.x tile.y).length = 0 ∧
          isAtPosition pos.x pos.y tile.x tile.y = false then none
      else
        ((potentialDetourParcels s).foldl
          (detourStep s pos tile (s.pathfinder.findPath pos.x pos.y tile.x tile.y).length)
          (none, JNum.neginf)).1 := by
  unfold evaluateDetourParcelsResult
  rw [hpos]
  dsimp only
  rw [htile]

/-! ### Claim theorems -/

/-- Claim C5: whenever parcels are carried, the position is known, and that
position is a delivery tile, `getDeliveryAction` clears the delivery path
and returns `Putdown`, regardless of detour candidates, route state or
blocking state. -/
theorem putdown_priority_on_delivery_tile (s : DeliveryStrategy) (pos : Pos)
    (hcarry : shouldDeliver s = true)
    (hpos : s.beliefs.myPosition = some pos)
    (htile : s.beliefs.isDeliveryTile pos.x pos.y = true) :
    getDeliveryAction s = (some Action.putdown, { s with deliveryPath := [] }) := by
  simp [getDeliveryAction, hcarry, hpos, htile]

/-- Witness for claim C5 at the concrete state `sOnTile`. -/
theorem putdown_priority_on_delivery_tile_witness :
    shouldDeliver sOnTile = true ∧
    sOnTile.beliefs.myPosition = some ⟨5, 0⟩ ∧
    sOnTile.beliefs.isDeliveryTile 5 0 = true ∧
    getDeliveryAction sOnTile = (some Action.putdown, { sOnTile with deliveryPath := [] }) :=
  ⟨rfl, rfl, rfl, putdown_priority_on_delivery_tile sOnTile ⟨5, 0⟩ rfl rfl rfl⟩

/-- Claim C2: with a non-empty path whose blocked first step equals the
recorded blocked tile, the counter is incremented; exactly when the
incremented counter reaches the timeout, the path is cleared and the block
state reset with no action returned; on earlier blocked turns no action is
returned and the path is left unchanged. -/
theorem blocked_same_tile_timeout_exact (s : DeliveryStrategy) (cx cy : Int)
    (st : Pos) (rest : List Pos) (bt : Pos)
    (hpath : s.deliveryPath = st :: rest)
    (hblock : isBlockedByOtherAgent s st.x st.y = true)
    (hbt : s.blockedTargetTile = some bt)
    (hx : bt.x = st.x) (hy : bt.y = st.y) :
    (s.blockedCounter + 1 ≥ s.BLOCKED_TIMEOUT →
      followDeliveryPath s cx cy =
        (none, { s with deliveryPath := [], blockedTargetTile := none, blockedCounter := 0 })) ∧
    (s.blockedCounter + 1 < s.BLOCKED_TIMEOUT →
      followDeliveryPath s cx cy =
        (none, { s with blockedCounter := s.blockedCounter + 1 })) := by
  constructor
  · intro hto
    simp [followDeliveryPath, hpath, hblock, hbt, hx, hy, hto]
  · intro hto
    simp [followDeliveryPath, hpath, hblock, hbt, hx, hy, Nat.not_le.mpr hto]

/-- Witness for claim C2 at the concrete state `sBlocked` (counter 1,
timeout 3: a blocked turn before the timeout). -/
theorem blocked_same_tile_timeout_exact_witness :
    sBlocked.deliveryPath = ⟨1, 0⟩ :: [⟨2, 0⟩] ∧
    isBlockedByOtherAgent sBlocked 1 0 = true ∧
    sBlocked.blockedTargetTile = some ⟨1, 0⟩ ∧
    sBlocked.blockedCounter + 1 < sBlocked.BLOCKED_TIMEOUT ∧
    followDeliveryPath sBlocked 0 0 =
      (none, { sBlocked with blockedCounter := sBlocked.blockedCounter + 1 }) :=
  ⟨rfl, by decide, rfl, by decide,
    (blocked_same_tile_timeout_exact sBlocked 0 0 ⟨1, 0⟩ [⟨2, 0⟩] ⟨1, 0⟩ rfl (by decide)
      rfl rfl rfl).2 (by decide)⟩

/-- Claim C6: when the blocked first step differs from the recorded blocked
tile (or none was recorded), the blocked tile is set to that step, the
counter is set to exactly 1, and no action is returned. -/
theorem blocked_new_tile_counter_one (s : DeliveryStrategy) (cx cy : Int)
    (st : Pos) (rest : List Pos)
    (hpath : s.deliveryPath = st :: rest)
    (hblock : isBlockedByOtherAgent s st.x st.y = true)
    (hnew : s.blockedTargetTile = none ∨
      ∃ bt, s.blockedTargetTile = some bt ∧ ¬(bt.x = st.x ∧ bt.y = st.y)) :
    followDeliveryPath s cx cy =
      (none, { s with blockedTargetTile := some { x := st.x, y := st.y },
                      blockedCounter := 1 }) := by
  rcases hnew with hbt | ⟨bt, hbt, hdiff⟩
  · simp [followDeliveryPath, hpath, hblock, hbt]
  · simp [followDeliveryPath, hpath, hblock, hbt, hdiff]

/-- Witness for claim C6 at the concrete state `sNewBlock` (recorded tile
`(9, 9)`, blocked tile `(1, 0)`, previous counter 7). -/
theorem blocked_new_tile_counter_one_witness :
    sNewBlock.deliveryPath = ⟨1, 0⟩ :: [] ∧
    isBlockedByOtherAgent sNewBlock 1 0 = true ∧
    sNewBlock.blockedTargetTile = some ⟨9, 9⟩ ∧
    sNewBlock.blockedCounter = 7 ∧
    followDeliveryPath sNewBlock 0 0 =
      (none, { sNewBlock with blockedTargetTile := some ⟨1, 0⟩, blockedCounter := 1 }) :=
  ⟨rfl, by decide, rfl, rfl,
    blocked_new_tile_counter_one sNewBlock 0 0 ⟨1, 0⟩ [] rfl (by decide)
      (Or.inr ⟨⟨9, 9⟩, rfl, by decide⟩)⟩

/-- Claim C8: with a non-empty path whose first step is not blocked, if the
router cannot resolve the step the path is cleared, the block state reset
and no action returned; if it resolves an action, exactly one step is
popped from the front of the path and that move is returned. -/
theorem unblocked_step_action_or_clear (s : DeliveryStrategy) (cx cy : Int)
    (st : Pos) (rest : List Pos)
    (hpath : s.deliveryPath = st :: rest)
    (hfree : isBlockedByOtherAgent s st.x st.y = false) :
    (s.pathfinder.getActionToNextStep cx cy st.x st.y = none →
      followDeliveryPath s cx cy =
        (none, { s with deliveryPath := [], blockedTargetTile := none, blockedCounter := 0 })) ∧
    (∀ a, s.pathfinder.getActionToNextStep cx cy st.x st.y = some a →
      followDeliveryPath s cx cy =
        (some (Action.move a),
          { s with deliveryPath := rest, blockedTargetTile := none, blockedCounter := 0 })) := by
  constructor
  · intro ha
    simp [followDeliveryPath, hpath, hfree, ha]
  · intro a ha
    simp [followDeliveryPath, hpath, hfree, ha]

/-- Witness for claim C8 at the concrete state `sFree`. -/
theorem unblocked_step_action_or_clear_witness :
    sFree.deliveryPath = ⟨1, 0⟩ :: [⟨2, 0⟩] ∧
    isBlockedByOtherAgent sFree 1 0 = false ∧
    sFree.pathfinder.getActionToNextStep 0 0 1 0 = some "right" ∧
    followDeliveryPath sFree 0 0 =
      (some (Action.move "right"),
        { sFree with deliveryPath := [⟨2, 0⟩], blockedTargetTile := none, blockedCounter := 0 }) :=
  ⟨rfl, by decide, rfl,
    (unblocked_step_action_or_clear sFree 0 0 ⟨1, 0⟩ [⟨2, 0⟩] rfl (by decide)).2 "right" rfl⟩

/-- Claim C10: with a falsy own id or an absent agents collection,
`isBlockedByOtherAgent` is false for every tile, so `followDeliveryPath`
never enters the blocking branch: the counter is not incremented and the
agent attempts the move even onto an occupied tile. -/
theorem missing_id_or_agents_never_blocked (s : DeliveryStrategy)
    (h : strFalsy s.beliefs.myId = true ∨ s.beliefs.agents = none) :
    (∀ x y, isBlockedByOtherAgent s x y = false) ∧
    (∀ st rest cx cy, s.deliveryPath = st :: rest →
      (s.pathfinder.getActionToNextStep cx cy st.x st.y = none →
        followDeliveryPath s cx cy =
          (none, { s with deliveryPath := [], blockedTargetTile := none, blockedCounter := 0 })) ∧
      (∀ a, s.pathfinder.getActionToNextStep cx cy st.x st.y = some a →
        followDeliveryPath s cx cy =
          (some (Action.move a),
            { s with deliveryPath := rest, blockedTargetTile := none, blockedCounter := 0 }))) := by
  have hfree : ∀ x y, isBlockedByOtherAgent s x y = false := by
    intro x y
    unfold isBlockedByOtherAgent
    rcases h with h | h
    · cases hid : s.beliefs.myId with
      | none => cases hag : s.beliefs.agents <;> rfl
      | some m =>
        have hm : m = "" := by simpa [strFalsy, hid] using h
        cases hag : s.beliefs.agents with
        | none => rfl
        | some ags => simp [hm]
    · cases hid : s.beliefs.myId with
      | none => rw [h]
      | some m => rw [h]
  refine ⟨hfree, ?_⟩
  intro st rest cx cy hpath
  constructor
  · intro ha
    simp [followDeliveryPath, hpath, hfree st.x st.y, ha]
  · intro a ha
    simp [followDeliveryPath, hpath, hfree st.x st.y, ha]

/-- Witness for claim C10 at the concrete state `sBlindBlocked`: agent "bob"
stands on the next step, yet the move is attempted. -/
theorem missing_id_or_agents_never_blocked_witness :
    strFalsy sBlindBlocked.beliefs.myId = true ∧
    sBlindBlocked.beliefs.agents = some [⟨"bob", 1, 0⟩] ∧
    isBlockedByOtherAgent sBlindBlocked 1 0 = false ∧
    followDeliveryPath sBlindBlocked 0 0 =
      (some (Action.move "right"),
        { sBlindBlocked with deliveryPath := [], blockedTargetTile := none,
                             blockedCounter := 0 }) :=
  ⟨rfl, rfl, (missing_id_or_agents_never_blocked sBlindBlocked (Or.inl rfl)).1 1 0,
    ((missing_id_or_agents_never_blocked sBlindBlocked (Or.inl rfl)).2 ⟨1, 0⟩ [] 0 0 rfl).2
      "right" rfl⟩

/-- Counterexample to claim C3: at `sOnTile` the Putdown branch of
`getDeliveryAction` clears the delivery path yet leaves the stale block
state `(some (9, 9), 5)` untouched. -/
theorem putdown_clear_leaves_blockstate :
    (getDeliveryAction sOnTile).2.deliveryPath = [] ∧
    (getDeliveryAction sOnTile).2.blockedCounter = 5 ∧
    ¬(getDeliveryAction sOnTile).2.blockedCounter = 0 ∧
    (getDeliveryAction sOnTile).2.blockedTargetTile = some ⟨9, 9⟩ ∧
    ¬(getDeliveryAction sOnTile).2.blockedTargetTile = none := by
  decide

/-- Claim C3 (amended): the block state is reset to `(null, 0)` whenever the
path is cleared by `followDeliveryPath` or by `updateCarriedParcels`; the
Putdown-on-delivery-tile branch and the no-delivery-tile branch of
`getDeliveryAction` clear the path while leaving the block state
unchanged. -/
theorem blockstate_reset_on_path_clear_amended (s : DeliveryStrategy) :
    (∀ cx cy, (followDeliveryPath s cx cy).2.deliveryPath = [] →
      (followDeliveryPath s cx cy).2.blockedTargetTile = none ∧
      (followDeliveryPath s cx cy).2.blockedCounter = 0) ∧
    (∀ ps, s.deliveryPath ≠ [] → (updateCarriedParcels s ps).deliveryPath = [] →
      (updateCarriedParcels s ps).blockedTargetTile = none ∧
      (updateCarriedParcels s ps).blockedCounter = 0) ∧
    (∀ pos, shouldDeliver s = true → s.beliefs.myPosition = some pos →
      s.beliefs.isDeliveryTile pos.x pos.y = true →
      (getDeliveryAction s).2.deliveryPath = [] ∧
      (getDeliveryAction s).2.blockedTargetTile = s.blockedTargetTile ∧
      (getDeliveryAction s).2.blockedCounter = s.blockedCounter) ∧
    (∀ pos, shouldDeliver s = true → s.beliefs.myPosition = some pos →
      s.beliefs.isDeliveryTile pos.x pos.y = false →
      (evaluateDetourParcels s).1 = none →
      s.beliefs.getClosestDeliveryTile pos.x pos.y = none →
      (getDeliveryAction s).2.deliveryPath = [] ∧
      (getDeliveryAction s).2.blockedTargetTile = s.blockedTargetTile ∧
      (getDeliveryAction s).2.blockedCounter = s.blockedCounter) := by
  refine ⟨fun cx cy h => followDeliveryPath_cleared_resets s cx cy h, ?_, ?_, ?_⟩
  · intro ps hne hempty
    unfold updateCarriedParcels at hempty ⊢
    by_cases hid : s.beliefs.myId = none
    · rw [if_neg (fun hc => hc hid)] at hempty
      exact absurd hempty hne
    · rw [if_pos hid] at hempty ⊢
      dsimp only at hempty ⊢
      by_cases hcl : (ps.filter fun p => decide (p.carriedBy = s.beliefs.myId)).length = 0 ∧
          s.deliveryPath.length > 0
      · rw [if_pos hcl]
        exact ⟨rfl, rfl⟩
      · rw [if_neg hcl] at hempty
        exact absurd hempty hne
  · intro pos h1 h2 h3
    simp [getDeliveryAction, h1, h2, h3]
  · intro pos h1 h2 h3 hdet hclosest
    have hdet2 : evaluateDetourParcelsResult s = none := hdet
    simp [getDeliveryAction, evaluateDetourParcels, h1, h2, h3, hdet2, hclosest]

/-- Witness for the amended claim C3, exercising the Putdown branch at
`sOnTile`: the path is cleared while the block state is carried over. -/
theorem blockstate_reset_on_path_clear_amended_witness :
    shouldDeliver sOnTile = true ∧
    sOnTile.beliefs.isDeliveryTile 5 0 = true ∧
    (getDeliveryAction sOnTile).2.deliveryPath = [] ∧
    (getDeliveryAction sOnTile).2.blockedTargetTile = sOnTile.blockedTargetTile ∧
    (getDeliveryAction sOnTile).2.blockedCounter = sOnTile.blockedCounter :=
  ⟨rfl, rfl,
    ((blockstate_reset_on_path_clear_amended sOnTile).2.2.1 ⟨5, 0⟩ rfl rfl rfl).1,
    ((blockstate_reset_on_path_clear_amended sOnTile).2.2.1 ⟨5, 0⟩ rfl rfl rfl).2.1,
    ((blockstate_reset_on_path_clear_amended sOnTile).2.2.1 ⟨5, 0⟩ rfl rfl rfl).2.2⟩

/-- Counterexample to claim C4: at `sNoId` (own id unknown) the update
empties `carriedParcels` — a non-empty to empty transition with a non-empty
delivery path — yet the delivery path is not cleared. -/
theorem unknown_id_transition_keeps_path :
    ¬sNoId.carriedParcels = [] ∧
    (updateCarriedParcels sNoId []).carriedParcels = [] ∧
    ¬sNoId.deliveryPath = [] ∧
    (updateCarriedParcels sNoId []).deliveryPath = sNoId.deliveryPath ∧
    ¬(updateCarriedParcels sNoId []).deliveryPath = [] ∧
    (updateCarriedParcels sNoId []).blockedTargetTile = some ⟨1, 0⟩ ∧
    (updateCarriedParcels sNoId []).blockedCounter = 2 := by
  decide

/-- Claim C4 (amended): when the own id is known, `updateCarriedParcels`
recomputes the carried set by filtering on `carriedBy`, and if that set is
empty while the delivery path is non-empty the path is cleared and the
block state reset on the same call; when the id is unknown the carried set
is emptied but the path and block state are left unchanged. -/
theorem updateCarriedParcels_spec_amended (s : DeliveryStrategy) (allParcels : List Parcel) :
    (s.beliefs.myId = none →
      (updateCarriedParcels s allParcels).carriedParcels = [] ∧
      (updateCarriedParcels s allParcels).deliveryPath = s.deliveryPath ∧
      (updateCarriedParcels s allParcels).blockedTargetTile = s.blockedTargetTile ∧
      (updateCarriedParcels s allParcels).blockedCounter = s.blockedCounter) ∧
    (¬s.beliefs.myId = none →
      (updateCarriedParcels s allParcels).carriedParcels =
        allParcels.filter (fun p => decide (p.carriedBy = s.beliefs.myId)) ∧
      ((allParcels.filter (fun p => decide (p.carriedBy = s.beliefs.myId))).length = 0 →
        s.deliveryPath ≠ [] →
        (updateCarriedParcels s allParcels).deliveryPath = [] ∧
        (updateCarriedParcels s allParcels).blockedTargetTile = none ∧
        (updateCarriedParcels s allParcels).blockedCounter = 0)) := by
  constructor
  · intro hid
    simp [updateCarriedParcels, hid]
  · intro hid
    constructor
    · unfold updateCarriedParcels
      rw [if_pos hid]
      dsimp only
      split <;> rfl
    · intro hlen hne
      have hcl : (allParcels.filter fun p => decide (p.carriedBy = s.beliefs.myId)).length
          = 0 ∧ s.deliveryPath.length > 0 :=
        ⟨hlen, List.length_pos.mpr hne⟩
      unfold updateCarriedParcels
      rw [if_pos hid]
      dsimp only
      rw [if_pos hcl]
      exact ⟨rfl, rfl, rfl⟩

/-- Witness for the amended claim C4 at `sDropped`: the last carried parcel
disappears from the parcel list, so the route and block state are cleared. -/
theorem updateCarriedParcels_spec_amended_witness :
    ¬sDropped.beliefs.myId = none ∧
    ¬sDropped.deliveryPath = [] ∧
    (updateCarriedParcels sDropped []).carriedParcels = [] ∧
    (updateCarriedParcels sDropped []).deliveryPath = [] ∧
    (updateCarriedParcels sDropped []).blockedTargetTile = none ∧
    (updateCarriedParcels sDropped []).blockedCounter = 0 :=
  ⟨by decide, by decide,
    ((updateCarriedParcels_spec_amended sDropped []).2 (by decide)).1,
    (((updateCarriedParcels_spec_amended sDropped []).2 (by decide)).2 rfl (by decide)).1,
    (((updateCarriedParcels_spec_amended sDropped []).2 (by decide)).2 rfl (by decide)).2.1,
    (((updateCarriedParcels_spec_amended sDropped []).2 (by decide)).2 rfl (by decide)).2.2⟩

/-- Claim C7: inside `getDeliveryAction` the committed route toward the
current target (detour parcel or nearest delivery tile) is recomputed via
`findPath` exactly when the path is empty or its terminal step does not
match the target; otherwise the existing path is followed unchanged. -/
theorem lazy_path_recompute (s : DeliveryStrategy) (pos : Pos)
    (hcarry : shouldDeliver s = true)
    (hpos : s.beliefs.myPosition = some pos)
    (htile : s.beliefs.isDeliveryTile pos.x pos.y = false) :
    (∀ d, (evaluateDetourParcels s).1 = some d →
      isAtPosition d.x d.y pos.x pos.y = false →
      getDeliveryAction s =
        followDeliveryPath
          (if s.deliveryPath.length = 0 ∨ isPathLeadingTo s.deliveryPath d.x d.y = false then
            { s with deliveryPath := s.pathfinder.findPath pos.x pos.y d.x d.y }
          else s) pos.x pos.y) ∧
    ((evaluateDetourParcels s).1 = none →
      ∀ tile, s.beliefs.getClosestDeliveryTile pos.x pos.y = some tile →
      getDeliveryAction s =
        followDeliveryPath
          (if s.deliveryPath.length = 0 ∨ isPathLeadingTo s.deliveryPath tile.x tile.y = false
            then { s with deliveryPath := s.pathfinder.findPath pos.x pos.y tile.x tile.y }
          else s) pos.x pos.y) ∧
    (∀ (path : List Pos) (tx ty : Int),
      isPathLeadingTo path tx ty = true ↔
        ∃ last, path.getLast? = some last ∧ last.x = tx ∧ last.y = ty) := by
  refine ⟨?_, ?_, isPathLeadingTo_iff⟩
  · intro d hdet hat
    have hdet2 : evaluateDetourParcelsResult s = some d := hdet
    simp [getDeliveryAction, evaluateDetourParcels, hcarry, hpos, htile, hdet2, hat]
  · intro hdet tile hclosest
    have hdet2 : evaluateDetourParcelsResult s = none := hdet
    simp [getDeliveryAction, evaluateDetourParcels, hcarry, hpos, htile, hdet2, hclosest]

/-- Witness for claim C7 at `sLazy`: no detour candidate exists, the nearest
delivery tile is `(5, 0)`, and the action equals following the lazily
ensured path. -/
theorem lazy_path_recompute_witness :
    shouldDeliver sLazy = true ∧
    sLazy.beliefs.isDeliveryTile 0 0 = false ∧
    (evaluateDetourParcels sLazy).1 = none ∧
    sLazy.beliefs.getClosestDeliveryTile 0 0 = some ⟨5, 0⟩ ∧
    getDeliveryAction sLazy =
      followDeliveryPath
        (if sLazy.deliveryPath.length = 0 ∨ isPathLeadingTo sLazy.deliveryPath 5 0 = false then
          { sLazy with deliveryPath := sLazy.pathfinder.findPath 0 0 5 0 }
        else sLazy) 0 0 :=
  ⟨rfl, rfl, rfl, rfl,
    (lazy_path_recompute sLazy ⟨0, 0⟩ rfl rfl rfl).2.1 rfl ⟨5, 0⟩ rfl⟩

/-- Claim C9: `evaluateDetourParcels` leaves the whole strategy state — in
particular `deliveryPath`, `blockedTargetTile`, `blockedCounter` and
`carriedParcels` — unchanged, and its returned candidate is insensitive to
those mutable fields (and to the blocked timeout): it reads only the
beliefs, the pathfinder and the fixed detour configuration. -/
theorem evaluateDetourParcels_frame (s : DeliveryStrategy)
    (cp : List Parcel) (dp : List Pos) (bt : Option Pos) (bc bto : Nat) :
    (evaluateDetourParcels s).2 = s ∧
    (evaluateDetourParcels { s with carriedParcels := cp, deliveryPath := dp, blockedTargetTile := bt, blockedCounter := bc, BLOCKED_TIMEOUT := bto }).1 = (evaluateDetourParcels s).1 := by
  refine ⟨rfl, ?_⟩
  show evaluateDetourParcelsResult _ = evaluateDetourParcelsResult s
  cases s with
  | mk b pf cparcels thr maxd path btt bcc bto2 => rfl

/-- Claim C1: a parcel returned by `evaluateDetourParcels` is drawn from the
available parcels with falsy `carriedBy`, reward above the threshold and
heuristic distance within `maxDetourDistance`; both of its route legs are
reachable and its `addedSteps` is within `maxDetourDistance`
(`DetourValid`); no valid candidate scores strictly higher than it under the
JavaScript comparison of `reward / (addedSteps + 1)`, and no earlier valid
candidate ties with its score (the first encountered is kept). -/
theorem detour_selection_valid_and_optimal (s : DeliveryStrategy) (p : Parcel)
    (h : (evaluateDetourParcels s).1 = some p) :
    ∃ pos tile, s.beliefs.myPosition = some pos ∧
      s.beliefs.getClosestDeliveryTile pos.x pos.y = some tile ∧
      p ∈ s.beliefs.availableParcels ∧
      strFalsy p.carriedBy = true ∧
      p.reward > s.deliveryThreshold ∧
      s.beliefs.calculateDistance p.x p.y ≤ s.maxDetourDistance ∧
      DetourValid s pos tile (s.pathfinder.findPath pos.x pos.y tile.x tile.y).length p ∧
      (∀ q ∈ potentialDetourParcels s,
        DetourValid s pos tile (s.pathfinder.findPath pos.x pos.y tile.x tile.y).length q →
          jgt (detourScore s pos tile (s.pathfinder.findPath pos.x pos.y tile.x tile.y).length q)
            (detourScore s pos tile (s.pathfinder.findPath pos.x pos.y tile.x tile.y).length p)
            = false) ∧
      ∃ l1 l2, potentialDetourParcels s = l1 ++ p :: l2 ∧
        ∀ q ∈ l1,
          DetourValid s pos tile (s.pathfinder.findPath pos.x pos.y tile.x tile.y).length q →
            detourScore s pos tile (s.pathfinder.findPath pos.x pos.y tile.x tile.y).length q ≠
              detourScore s pos tile (s.pathfinder.findPath pos.x pos.y tile.x tile.y).length p
      := by
  have h0 : evaluateDetourParcelsResult s = some p := h
  cases hpos : s.beliefs.myPosition with
  | none =>
    rw [evaluateDetourParcelsResult_none_pos s hpos] at h0
    exact absurd h0 (by simp)
  | some pos =>
    cases htile : s.beliefs.getClosestDeliveryTile pos.x pos.y with
    | none =>
      rw [evaluateDetourParcelsResult_none_tile s pos hpos htile] at h0
      exact absurd h0 (by simp)
    | some tile =>
      rw [evaluateDetourParcelsResult_eq s pos tile hpos htile] at h0
      by_cases hguard : (s.pathfinder.findPath pos.x pos.y tile.x tile.y).length = 0 ∧
          isAtPosition pos.x pos.y tile.x tile.y = false
      · rw [if_pos hguard] at h0
        exact absurd h0 (by simp)
      · rw [if_neg hguard] at h0
        rcases foldl_best_spec
            (fun q => DetourValid s pos tile
              (s.pathfinder.findPath pos.x pos.y tile.x tile.y).length q)
            (fun q => detourScore s pos tile
              (s.pathfinder.findPath pos.x pos.y tile.x tile.y).length q)
            (detourStep s pos tile (s.pathfinder.findPath pos.x pos.y tile.x tile.y).length)
            (fun acc q => detourStep_spec s pos tile
              (s.pathfinder.findPath pos.x pos.y tile.x tile.y).length acc q)
            (potentialDetourParcels s) (none, JNum.neginf) with
          ⟨hfold, _⟩ | ⟨l1, pp, l2, hsplit, hV, hfold, hgacc, hl1, hl2⟩
        · rw [hfold] at h0
          exact absurd h0 (by simp)
        · rw [hfold] at h0
          have hpp : pp = p := by simpa using h0
          subst hpp
          have hmem : pp ∈ potentialDetourParcels s := by
            rw [hsplit]
            exact List.mem_append_right _ (List.mem_cons_self _ _)
          have hmem2 := List.mem_filter.mp hmem
          have hmem3 := List.mem_filter.mp hmem2.1
          have hf1 := hmem3.2
          rw [Bool.and_eq_true] at hf1
          have hdist : s.beliefs.calculateDistance pp.x pp.y ≤ s.maxDetourDistance := by
            simpa using hmem2.2
          have hrew : pp.reward > s.deliveryThreshold := by
            simpa using hf1.2
          refine ⟨pos, tile, rfl, htile, hmem3.1, hf1.1, hrew, hdist, hV, ?_,
            l1, l2, hsplit, ?_⟩
          · intro q hq hVq
            rw [hsplit] at hq
            rcases List.mem_append.mp hq with hq1 | hq2
            · exact (hl1 q hq1 hVq).1
            · rcases List.mem_cons.mp hq2 with rfl | hq3
              · exact jgt_irrefl _
              · exact hl2 q hq3 hVq
          · intro q hq hVq
            exact (hl1 q hq hVq).2

/-- Witness for claim C1 at `sDetour`: the reward-50 parcel at `(1, 0)` is
selected, and the theorem's guarantees hold for it concretely. -/
theorem detour_selection_valid_and_optimal_witness :
    (evaluateDetourParcels sDetour).1 = some parcelP1 ∧
    (∃ pos tile, sDetour.beliefs.myPosition = some pos ∧
      sDetour.beliefs.getClosestDeliveryTile pos.x pos.y = some tile ∧
      parcelP1 ∈ sDetour.beliefs.availableParcels ∧
      strFalsy parcelP1.carriedBy = true ∧
      parcelP1.reward > sDetour.deliveryThreshold ∧
      sDetour.beliefs.calculateDistance parcelP1.x parcelP1.y ≤ sDetour.maxDetourDistance ∧
      DetourValid sDetour pos tile
        (sDetour.pathfinder.findPath pos.x pos.y tile.x tile.y).length parcelP1 ∧
      (∀ q ∈ potentialDetourParcels sDetour,
        DetourValid sDetour pos tile
          (sDetour.pathfinder.findPath pos.x pos.y tile.x tile.y).length q →
          jgt (detourScore sDetour pos tile
              (sDetour.pathfinder.findPath pos.x pos.y tile.x tile.y).length q)
            (detourScore sDetour pos tile
              (sDetour.pathfinder.findPath pos.x pos.y tile.x tile.y).length parcelP1)
            = false) ∧
      ∃ l1 l2, potentialDetourParcels sDetour = l1 ++ parcelP1 :: l2 ∧
        ∀ q ∈ l1,
          DetourValid sDetour pos tile
            (sDetour.pathfinder.findPath pos.x pos.y tile.x tile.y).length q →
            detourScore sDetour pos tile
              (sDetour.pathfinder.findPath pos.x pos.y tile.x tile.y).length q ≠
              detourScore sDetour pos tile
                (sDetour.pathfinder.findPath pos.x pos.y tile.x tile.y).length parcelP1) := by
  have he : (evaluateDetourParcels sDetour).1 = some parcelP1 := by
    show evaluateDetourParcelsResult sDetour = some parcelP1
    simp [evaluateDetourParcelsResult, sDetour, mkStrategy, mkBeliefs, mkPathfinder, parcelP1,
      carriedC1, potentialDetourParcels, detourStep, detourAddedSteps, detourScore, jsDiv, jgt,
      isAtPosition, strFalsy, List.range_succ, List.filter, List.foldl]
  exact ⟨he, detour_selection_valid_and_optimal sDetour parcelP1 he⟩

end AgentDelivery
